import Mathlib

/-!
Verification of the orchestration core of the `music-cli` terminal music player.

This file shallowly embeds the core of the program:
  * the event model (`src/core/events.rs`),
  * the application state and its reducer `apply_event` (`src/application/state.rs`),
  * the shuffle manager (`src/modules/playback/shuffle_manager.rs`),
  * the fuzzy search engine (`src/modules/library/search_engine.rs`),
  * the event handlers and navigation resolution
    (`src/application/handlers/mod.rs`, `playback_handler.rs`, `ui_handler.rs`,
     `library_handler.rs`; the same logic also appears inline in
     `src/application/app.rs`).

Modelling conventions:
  * Rust `usize` becomes `Nat`; `PathBuf` becomes `String`; `Duration` becomes `Nat`.
  * `f32` volume values are carried abstractly as `Rat`; no claim computes on them.
  * The RNG used by `Vec::shuffle` is an oracle `sf : List Nat -> List Nat`,
    assumed (in theorems) to return a permutation of its input.
  * The external fuzzy matcher (`SkimMatcherV2::fuzzy_match`) is an oracle
    `fm : String -> String -> Option Int`.
  * The filesystem check `Path::is_dir` is an oracle `isDir : String -> Bool`.
  * Handlers act on an explicit context and return the updated context together
    with the list of emitted events and the number of storage `save` calls.
-/

/-- Repeat mode. Modelled from the spec: the `RepeatMode` enum definition is not
under `src/` (only its uses are); the spec gives the variants `Off | All | One`
with `Off` the default (confirmed by the reducer tests in
`src/application/state.rs`). -/
inductive RepeatMode where
  | Off
  | All
  | One
deriving DecidableEq, Repr

/-- A song record (`Song` in `src/core/models.rs`). -/
structure Song where
  path : String
  title : String
  artist : Option String
  album : Option String
  track_number : Option Nat
  duration : Option Nat
  search_key : String
deriving DecidableEq, Repr

/-- Persisted settings (`ConfigState` in `src/application/state.rs`).
The Rust field `repeat` is renamed `repeat_mode` because `repeat` is a Lean
keyword. -/
structure ConfigState where
  root_path : Option String
  volume : Rat
  shuffle : Bool
  repeat_mode : RepeatMode
deriving DecidableEq, Repr

/-- Library state (`LibraryState` in `src/application/state.rs`). -/
structure LibraryState where
  songs : List Song
  is_scanning : Bool
  last_scan_path : Option String
deriving DecidableEq, Repr

/-- Playback state (`PlaybackState` in `src/application/state.rs`). -/
structure PlaybackState where
  current_song : Option Song
  is_playing : Bool
  is_paused : Bool
  volume : Rat
  playlist : List Song
  current_index : Option Nat
  current_elapsed : Nat
deriving DecidableEq, Repr

/-- Transient UI state (`UiState` in `src/application/state.rs`). -/
structure UiState where
  selected_index : Option Nat
  status_message : String
  error_message : Option String
  search_active : Bool
  search_query : String
  search_results : List (Nat × Song)
deriving DecidableEq, Repr

/-- Complete application state (`AppState` in `src/application/state.rs`). -/
structure AppState where
  config : ConfigState
  library : LibraryState
  playback : PlaybackState
  ui : UiState
deriving DecidableEq, Repr

/-- Playback events (`PlaybackEvent` in `src/core/events.rs`). -/
inductive PlaybackEvent where
  | PlayRequested (song : Song)
  | Started (song : Song)
  | Paused
  | Resumed
  | TrackFinished
  | Stopped
  | Error (message : String)
  | VolumeChanged (volume : Rat)
  | Shuffle (enabled : Bool)
  | RepeatChanged (mode : RepeatMode)
deriving DecidableEq, Repr

/-- Library events (`LibraryEvent` in `src/core/events.rs`). -/
inductive LibraryEvent where
  | ScanRequested (path : String)
  | ScanStarted (path : String)
  | ScanProgress (found : Nat)
  | ScanCompleted (songs : List Song) (count : Nat)
  | LibraryLoaded (songs : List Song)
  | SearchRequested (query : String)
  | SearchResults (results : List (Nat × Song))
deriving DecidableEq, Repr

/-- UI events (`UiEvent` in `src/core/events.rs`). -/
inductive UiEvent where
  | PlaySelectedRequested
  | TogglePauseRequested
  | NextTrackRequested
  | PreviousTrackRequested
  | SelectionChanged (index : Nat)
  | QuitRequested
  | ShowMessage (message : String)
  | ShowError (message : String)
  | VolumeChangeRequested (volume : Nat)
  | PathChangeRequested (path : String)
  | SearchToggled (active : Bool)
  | SearchQueryChanged (query : String)
  | ShuffleToggled (shuffle_enabled : Bool)
  | ShuffleSet (enabled : Bool)
  | RepeatChangeRequested (mode : RepeatMode)
deriving DecidableEq, Repr

/-- Top-level events (`AppEvent` in `src/core/events.rs`). -/
inductive AppEvent where
  | Playback (pe : PlaybackEvent)
  | Library (le : LibraryEvent)
  | Ui (ue : UiEvent)
  | Shutdown
deriving DecidableEq, Repr

/-- The state reducer `AppState::apply_event` from `src/application/state.rs`
(lines 173-307), as a pure function on states. -/
def apply_event (s : AppState) (event : AppEvent) : AppState :=
  match event with
  | AppEvent.Playback pe =>
    match pe with
    | PlaybackEvent.Started song =>
      { s with
        playback := { s.playback with
          current_song := some song, is_playing := true, is_paused := false,
          current_index := s.ui.selected_index },
        ui := { s.ui with
          status_message := "Playing: " ++ song.title, error_message := none } }
    | PlaybackEvent.Paused =>
      { s with
        playback := { s.playback with is_paused := true },
        ui := { s.ui with status_message := "Paused" } }
    | PlaybackEvent.Resumed =>
      let s := { s with playback := { s.playback with is_paused := false } }
      match s.playback.current_song with
      | some song =>
        { s with ui := { s.ui with status_message := "Playing: " ++ song.title } }
      | none => s
    | PlaybackEvent.Stopped =>
      { s with
        playback := { s.playback with
          is_playing := false, is_paused := false, current_song := none },
        ui := { s.ui with status_message := "Stopped" } }
    | PlaybackEvent.TrackFinished =>
      { s with playback := { s.playback with is_playing := false } }
    | PlaybackEvent.VolumeChanged volume =>
      { s with
        playback := { s.playback with volume := volume },
        config := { s.config with volume := volume } }
    | PlaybackEvent.Error message =>
      { s with ui := { s.ui with error_message := some message } }
    | PlaybackEvent.Shuffle enabled =>
      { s with config := { s.config with shuffle := enabled } }
    | PlaybackEvent.RepeatChanged mode =>
      { s with config := { s.config with repeat_mode := mode } }
    | _ => s
  | AppEvent.Library le =>
    match le with
    | LibraryEvent.ScanStarted path =>
      { s with
        library := { s.library with is_scanning := true, last_scan_path := some path },
        ui := { s.ui with
          status_message := "Scanning \"" ++ path ++ "\"...", error_message := none } }
    | LibraryEvent.ScanProgress found =>
      { s with ui := { s.ui with
        status_message := "Scanning... found " ++ toString found ++ " songs" } }
    | LibraryEvent.ScanCompleted songs count =>
      let s := { s with
        library := { s.library with songs := songs, is_scanning := false },
        ui := { s.ui with status_message := "Found " ++ toString count ++ " songs" } }
      if s.ui.selected_index = none ∧ songs ≠ [] then
        { s with ui := { s.ui with selected_index := some 0 } }
      else s
    | LibraryEvent.LibraryLoaded songs =>
      let s := { s with library := { s.library with songs := songs } }
      if s.ui.selected_index = none ∧ songs ≠ [] then
        { s with ui := { s.ui with selected_index := some 0 } }
      else s
    | LibraryEvent.SearchResults results =>
      let s := { s with ui := { s.ui with search_results := results } }
      match results with
      | [] => { s with ui := { s.ui with status_message := "No results found" } }
      | r :: _ =>
        { s with ui := { s.ui with
          status_message := "Found " ++ toString results.length ++ " matches",
          selected_index := some r.1 } }
    | _ => s
  | AppEvent.Ui ue =>
    match ue with
    | UiEvent.SelectionChanged index =>
      { s with ui := { s.ui with selected_index := some index } }
    | UiEvent.ShowMessage message =>
      { s with ui := { s.ui with status_message := message, error_message := none } }
    | UiEvent.ShowError message =>
      { s with ui := { s.ui with error_message := some message } }
    | UiEvent.SearchToggled active =>
      let s := { s with ui := { s.ui with search_active := active } }
      if active = false then
        let s := { s with ui := { s.ui with
          search_query := "", search_results := [],
          status_message := "Search cleared" } }
        match s.playback.current_index with
        | some playing_index =>
          { s with ui := { s.ui with selected_index := some playing_index } }
        | none =>
          match s.ui.selected_index with
          | some selected =>
            { s with ui := { s.ui with selected_index := some selected } }
          | none =>
            if s.library.songs.isEmpty = false then
              { s with ui := { s.ui with selected_index := some 0 } }
            else s
      else
        { s with ui := { s.ui with status_message := "Search mode active" } }
    | UiEvent.SearchQueryChanged query =>
      { s with ui := { s.ui with search_query := query } }
    | _ => s
  | AppEvent.Shutdown => s

/-- Swap the elements at positions `i` and `j` of a list (`Vec::swap` in Rust;
out-of-range swaps, which never occur at the call sites, leave the list
unchanged). -/
def listSwap (l : List Nat) (i j : Nat) : List Nat :=
  match l[i]?, l[j]? with
  | some a, some b => (l.set i b).set j a
  | _, _ => l

/-- Shuffle manager state (`ShuffleManager` in
`src/modules/playback/shuffle_manager.rs`). -/
structure ShuffleManager where
  enabled : Bool
  shuffle_queue : List Nat
  queue_position : Nat
  playlist_size : Nat
deriving DecidableEq, Repr

namespace ShuffleManager

/-- `ShuffleManager::new`. -/
def new : ShuffleManager :=
  { enabled := false, shuffle_queue := [], queue_position := 0, playlist_size := 0 }

/-- `ShuffleManager::set_enabled` (lines 44-54). -/
def set_enabled (m : ShuffleManager) (enabled : Bool) : ShuffleManager :=
  if m.enabled = enabled then m
  else
    let m := { m with enabled := enabled }
    if m.enabled = false then { m with shuffle_queue := [], queue_position := 0 }
    else m

/-- `ShuffleManager::generate_shuffle_queue` (lines 154-174).  `sf` models one
invocation of `indices.shuffle(&mut rng)`: it receives `0..playlist_size` and
returns the shuffled list. -/
def generate_shuffle_queue (sf : List Nat → List Nat) (m : ShuffleManager)
    (force_first : Option Nat) : ShuffleManager :=
  if m.playlist_size = 0 then { m with shuffle_queue := [] }
  else
    let indices := sf (List.range m.playlist_size)
    let indices :=
      match force_first with
      | some first =>
        match indices.findIdx? (fun i => i = first) with
        | some pos => listSwap indices 0 pos
        | none => indices
      | none => indices
    { m with shuffle_queue := indices, queue_position := 0 }

/-- `ShuffleManager::initialize` (lines 67-72). -/
def init (sf : List Nat → List Nat) (m : ShuffleManager)
    (playlist_size : Nat) (current_index : Option Nat) : ShuffleManager :=
  let m := { m with playlist_size := playlist_size }
  if m.enabled = true ∧ 0 < playlist_size then
    generate_shuffle_queue sf m current_index
  else m

/-- `ShuffleManager::next_index` (lines 80-126), returning the produced index
together with the updated manager. -/
def next_index (sf : List Nat → List Nat) (m : ShuffleManager)
    (current_index : Option Nat) (loop_playlist : Bool) :
    Option Nat × ShuffleManager :=
  if m.enabled = false then
    (current_index.bind (fun idx =>
      if idx + 1 < m.playlist_size then some (idx + 1)
      else if loop_playlist then some 0
      else none), m)
  else
    let m1 := if m.shuffle_queue.isEmpty then generate_shuffle_queue sf m current_index else m
    let next_pos := m1.queue_position + 1
    if m1.shuffle_queue.length ≤ next_pos then
      if loop_playlist = false then (none, m1)
      else
        let last_played := m1.shuffle_queue.getLast?
        let m2 := generate_shuffle_queue sf m1 none
        let m3 :=
          if 1 < m2.playlist_size then
            match last_played, m2.shuffle_queue.head? with
            | some last, some first =>
              if last = first then
                { m2 with shuffle_queue :=
                  listSwap m2.shuffle_queue 0 (m2.shuffle_queue.length - 1) }
              else m2
            | _, _ => m2
          else m2
        let m4 := { m3 with queue_position := 0 }
        (m4.shuffle_queue[m4.queue_position]?, m4)
    else
      let m2 := { m1 with queue_position := next_pos }
      (m2.shuffle_queue[m2.queue_position]?, m2)

/-- `ShuffleManager::previous_index` (lines 136-148). -/
def previous_index (m : ShuffleManager) (current_index : Option Nat) :
    Option Nat × ShuffleManager :=
  if m.enabled = false then
    (current_index.bind (fun idx => if 0 < idx then some (idx - 1) else none), m)
  else if 0 < m.queue_position then
    let m1 := { m with queue_position := m.queue_position - 1 }
    (m1.shuffle_queue[m1.queue_position]?, m1)
  else (none, m)

/-- `ShuffleManager::update_playlist_size` (lines 177-186). -/
def update_playlist_size (sf : List Nat → List Nat) (m : ShuffleManager)
    (new_size : Nat) : ShuffleManager :=
  if m.playlist_size ≠ new_size then
    let m := { m with playlist_size := new_size }
    if m.enabled = true then generate_shuffle_queue sf m none else m
  else m

/-- `ShuffleManager::remaining_in_pass` (lines 194-202). -/
def remaining_in_pass (m : ShuffleManager) : Nat :=
  if m.shuffle_queue.isEmpty then 0
  else m.shuffle_queue.length - (m.queue_position + 1)

end ShuffleManager

/-- Repeatedly call `next_index` with `loop_playlist = false` and no current
index, collecting the produced indices until `none` or the fuel runs out.
This models the drain loop of the shuffle tests. -/
def drain_next (sf : List Nat → List Nat) : Nat → ShuffleManager → List Nat
  | 0, _ => []
  | Nat.succ fuel, m =>
    match ShuffleManager.next_index sf m none false with
    | (none, _) => []
    | (some i, m1) => i :: drain_next sf fuel m1

/-- A search result (`SearchResult` in `src/modules/library/search_engine.rs`).
The Rust borrow of the song is modelled by a copy. -/
structure SearchResult where
  index : Nat
  song : Song
  score : Int
deriving DecidableEq, Repr

/-- `SearchEngine::score_song` (lines 67-82).  `fm` is the external fuzzy
matcher oracle (`SkimMatcherV2::fuzzy_match`, higher score is better, `none`
when there is no match). -/
def score_song (fm : String → String → Option Int) (song : Song) (query : String) :
    Option Int :=
  let title_score := fm song.title query
  let artist_score := song.artist.bind (fun a => fm a query)
  let album_score := song.album.bind (fun a => fm a query)
  let combined_score := fm song.search_key query
  ([title_score, artist_score, album_score, combined_score].filterMap id).max?

/-- `SearchEngine::search` (lines 38-61).  Rust's stable `sort_by` with
comparator `b.score.cmp(&a.score)` is modelled by the stable `mergeSort` with
the corresponding "descending by score" order. -/
def search (fm : String → String → Option Int) (library : List Song)
    (query : String) : List SearchResult :=
  if query = "" then []
  else
    let query_lower := query.toLower
    let results := library.enum.filterMap (fun p =>
      (score_song fm p.2 query_lower).map (fun sc =>
        { index := p.1, song := p.2, score := sc }))
    results.mergeSort (fun a b => decide (b.score ≤ a.score))

/-- `SearchEngine::search_result_to_song_index` (lines 85-90). -/
def search_result_to_song_index (search_results : List SearchResult) :
    List (Nat × Song) :=
  search_results.map (fun result => (result.index, result.song))

/-- `src/utils.rs` lines 16-19 (`(percent/100)^4`); the `f32` arithmetic is
carried out exactly in `Rat`. -/
def volume_percent_to_amplitude (percent : Nat) : Rat :=
  ((percent : Rat) / 100) ^ 4

/-- The navigation outcome type (`NavTarget` in
`src/application/handlers/mod.rs` lines 15-22). -/
inductive NavTarget where
  | Go (idx : Nat)
  | Restart
  | Nothing
deriving DecidableEq, Repr

/-- Observable behaviour of the playback backend, an external collaborator:
the flags the handlers branch on and whether a `play` call succeeds. -/
structure BackendObs where
  is_playing : Bool
  is_paused : Bool
  play_ok : Bool
deriving DecidableEq, Repr

/-- The handler context (`HandlerContext` in `src/application/handlers/mod.rs`
lines 28-34): the shared state, the shuffle manager, and the presence of the
optional storage and playback backends. -/
structure Ctx where
  state : AppState
  shuffle : ShuffleManager
  storage_present : Bool
  playback : Option BackendObs
deriving DecidableEq, Repr

/-- What one handler invocation produced: the updated context, the events it
emitted (in order), and how many times `StorageBackend::save` was called. -/
structure HandlerOut where
  ctx : Ctx
  emitted : List AppEvent
  saves : Nat
deriving DecidableEq, Repr

/-- `HandlerContext::persist_state` (lines 38-45): number of `save` calls it
performs. -/
def persist_saves (c : Ctx) : Nat :=
  if c.storage_present then 1 else 0

/-- `HandlerContext::execute_nav` (lines 125-146): resolves a `NavTarget` into
an updated `selected_index` and at most one `PlayRequested` event. -/
def execute_nav (c : Ctx) (target : NavTarget) (current_index : Option Nat) :
    HandlerOut :=
  let play_index :=
    match target with
    | NavTarget.Go idx => some idx
    | NavTarget.Restart => current_index
    | NavTarget.Nothing => none
  match play_index with
  | some idx =>
    let st := c.state
    let st := { st with ui := { st.ui with selected_index := some idx } }
    let c := { c with state := st }
    match st.library.songs[idx]? with
    | some song =>
      { ctx := c, emitted := [AppEvent.Playback (PlaybackEvent.PlayRequested song)],
        saves := 0 }
    | none => { ctx := c, emitted := [], saves := 0 }
  | none => { ctx := c, emitted := [], saves := 0 }

/-- The `let target = ...` computation of `HandlerContext::advance_to_next`
(lines 59-81), including the queue re-initialization when the pass ran dry. -/
def advance_to_next_target (sf : List Nat → List Nat) (sm : ShuffleManager)
    (current_index : Option Nat) (library_len : Nat) (loop_playlist : Bool) :
    NavTarget × ShuffleManager :=
  if sm.enabled = true then
    let sm := if sm.remaining_in_pass = 0 then sm.init sf library_len current_index else sm
    match sm.next_index sf current_index loop_playlist with
    | (some idx, sm) => (NavTarget.Go idx, sm)
    | (none, sm) => (NavTarget.Restart, sm)
  else
    match current_index with
    | some idx =>
      let next := idx + 1
      if next < library_len then (NavTarget.Go next, sm)
      else if loop_playlist then (NavTarget.Go 0, sm)
      else (NavTarget.Restart, sm)
    | none => (NavTarget.Nothing, sm)

/-- `HandlerContext::advance_to_next` (lines 53-84). -/
def advance_to_next (sf : List Nat → List Nat) (c : Ctx)
    (current_index : Option Nat) (library_len : Nat) (loop_playlist : Bool) :
    HandlerOut :=
  let tp := advance_to_next_target sf c.shuffle current_index library_len loop_playlist
  execute_nav { c with shuffle := tp.2 } tp.1 current_index

/-- The `let target = ...` computation of `HandlerContext::advance_to_prev`
(lines 98-115). -/
def advance_to_prev_target (sm : ShuffleManager) (current_index : Option Nat)
    (library_len : Nat) (loop_playlist : Bool) : NavTarget × ShuffleManager :=
  if sm.enabled = true then
    match sm.previous_index current_index with
    | (some idx, sm) => (NavTarget.Go idx, sm)
    | (none, sm) => (NavTarget.Restart, sm)
  else
    match current_index with
    | some 0 =>
      if loop_playlist then (NavTarget.Go (library_len - 1), sm)
      else (NavTarget.Restart, sm)
    | some idx => (NavTarget.Go (idx - 1), sm)
    | none => (NavTarget.Nothing, sm)

/-- `HandlerContext::advance_to_prev` (lines 92-118). -/
def advance_to_prev (c : Ctx) (current_index : Option Nat) (library_len : Nat)
    (loop_playlist : Bool) : HandlerOut :=
  let tp := advance_to_prev_target c.shuffle current_index library_len loop_playlist
  execute_nav { c with shuffle := tp.2 } tp.1 current_index

/-- `PlaybackHandler::handle` (`src/application/handlers/playback_handler.rs`
lines 15-89).  Backend method calls (`play`, `set_volume`) are external
effects; only their control flow (success of `play`) is modelled. -/
def playback_handle (sf : List Nat → List Nat) (c : Ctx) (event : PlaybackEvent) :
    HandlerOut :=
  match event with
  | PlaybackEvent.PlayRequested song =>
    match c.playback with
    | some b =>
      if b.play_ok then
        { ctx := c, emitted := [AppEvent.Playback (PlaybackEvent.Started song)],
          saves := 0 }
      else { ctx := c, emitted := [], saves := 0 }
    | none => { ctx := c, emitted := [], saves := 0 }
  | PlaybackEvent.TrackFinished =>
    let repeat_mode := c.state.config.repeat_mode
    let current_index := c.state.playback.current_index
    let library_len := c.state.library.songs.length
    match repeat_mode with
    | RepeatMode.One =>
      match current_index with
      | some idx =>
        match c.state.library.songs[idx]? with
        | some song =>
          { ctx := c,
            emitted := [AppEvent.Playback (PlaybackEvent.PlayRequested song)],
            saves := 0 }
        | none => { ctx := c, emitted := [], saves := 0 }
      | none => { ctx := c, emitted := [], saves := 0 }
    | RepeatMode.All => advance_to_next sf c current_index library_len true
    | RepeatMode.Off => advance_to_next sf c current_index library_len false
  | PlaybackEvent.VolumeChanged _ => { ctx := c, emitted := [], saves := persist_saves c }
  | PlaybackEvent.Shuffle _ => { ctx := c, emitted := [], saves := persist_saves c }
  | PlaybackEvent.RepeatChanged _ => { ctx := c, emitted := [], saves := persist_saves c }
  | _ => { ctx := c, emitted := [], saves := 0 }

/-- `UiHandler::apply_shuffle` (`src/application/handlers/ui_handler.rs`
lines 151-166). -/
def apply_shuffle (sf : List Nat → List Nat) (c : Ctx) (enabled : Bool) :
    HandlerOut :=
  let sm := c.shuffle.set_enabled enabled
  let sm :=
    if enabled then
      sm.init sf c.state.library.songs.length c.state.ui.selected_index
    else sm
  { ctx := { c with shuffle := sm },
    emitted := [AppEvent.Playback (PlaybackEvent.Shuffle enabled)], saves := 0 }

/-- `UiHandler::handle` (`src/application/handlers/ui_handler.rs` lines 19-147).
`isDir` is the filesystem oracle for `Path::is_dir`. -/
def ui_handle (sf : List Nat → List Nat) (isDir : String → Bool) (c : Ctx)
    (event : UiEvent) : HandlerOut :=
  match event with
  | UiEvent.PlaySelectedRequested =>
    let song := c.state.ui.selected_index.bind (fun i => c.state.library.songs[i]?)
    match song with
    | some song =>
      { ctx := c, emitted := [AppEvent.Playback (PlaybackEvent.PlayRequested song)],
        saves := 0 }
    | none => { ctx := c, emitted := [], saves := 0 }
  | UiEvent.TogglePauseRequested =>
    match c.playback with
    | some b =>
      if b.is_paused then
        { ctx := c, emitted := [AppEvent.Playback PlaybackEvent.Resumed], saves := 0 }
      else if b.is_playing then
        { ctx := c, emitted := [AppEvent.Playback PlaybackEvent.Paused], saves := 0 }
      else { ctx := c, emitted := [], saves := 0 }
    | none => { ctx := c, emitted := [], saves := 0 }
  | UiEvent.NextTrackRequested =>
    let current_index := c.state.ui.selected_index
    let library_len := c.state.library.songs.length
    let loop_playlist := c.state.config.repeat_mode = RepeatMode.All
    let sm :=
      if c.shuffle.enabled = true ∧ c.shuffle.remaining_in_pass = 0 then
        c.shuffle.init sf library_len current_index
      else c.shuffle
    advance_to_next sf { c with shuffle := sm } current_index library_len
      (decide loop_playlist)
  | UiEvent.PreviousTrackRequested =>
    let current_index := c.state.ui.selected_index
    let library_len := c.state.library.songs.length
    let loop_playlist := c.state.config.repeat_mode = RepeatMode.All
    advance_to_prev c current_index library_len (decide loop_playlist)
  | UiEvent.VolumeChangeRequested volume =>
    { ctx := c,
      emitted :=
        [AppEvent.Playback (PlaybackEvent.VolumeChanged (volume_percent_to_amplitude volume)),
         AppEvent.Ui (UiEvent.ShowMessage ("Volume set to " ++ toString volume ++ "%"))],
      saves := 0 }
  | UiEvent.PathChangeRequested path =>
    if isDir path = false then
      { ctx := c, emitted := [AppEvent.Ui (UiEvent.ShowError "Invalid directory path")],
        saves := 0 }
    else
      let st := { c.state with config := { c.state.config with root_path := some path } }
      let c := { c with state := st }
      { ctx := c,
        emitted := [AppEvent.Ui (UiEvent.ShowMessage "Music path updated. Run refresh to scan.")],
        saves := persist_saves c }
  | UiEvent.SearchToggled active =>
    if active = false then
      { ctx := c, emitted := [AppEvent.Ui (UiEvent.ShowMessage "Search cleared")],
        saves := 0 }
    else { ctx := c, emitted := [], saves := 0 }
  | UiEvent.SearchQueryChanged query =>
    { ctx := c, emitted := [AppEvent.Library (LibraryEvent.SearchRequested query)],
      saves := 0 }
  | UiEvent.ShuffleToggled shuffle_enabled => apply_shuffle sf c (!shuffle_enabled)
  | UiEvent.ShuffleSet enabled => apply_shuffle sf c enabled
  | UiEvent.RepeatChangeRequested mode =>
    { ctx := c, emitted := [AppEvent.Playback (PlaybackEvent.RepeatChanged mode)],
      saves := 0 }
  | UiEvent.QuitRequested =>
    { ctx := c, emitted := [AppEvent.Shutdown], saves := 0 }
  | _ => { ctx := c, emitted := [], saves := 0 }

/-- `LibraryHandler::handle` (`src/application/handlers/library_handler.rs`
lines 23-58). -/
def library_handle (sf : List Nat → List Nat) (fm : String → String → Option Int)
    (c : Ctx) (event : LibraryEvent) : HandlerOut :=
  match event with
  | LibraryEvent.ScanCompleted songs _ =>
    let len := songs.length
    let sm := c.shuffle.update_playlist_size sf len
    let sm := if sm.enabled = true then sm.init sf len none else sm
    { ctx := { c with shuffle := sm }, emitted := [], saves := persist_saves c }
  | LibraryEvent.LibraryLoaded songs =>
    let len := songs.length
    let sm := c.shuffle.update_playlist_size sf len
    let sm := if sm.enabled = true then sm.init sf len none else sm
    { ctx := { c with shuffle := sm }, emitted := [], saves := 0 }
  | LibraryEvent.SearchRequested query =>
    let results := search_result_to_song_index (search fm c.state.library.songs query)
    { ctx := c, emitted := [AppEvent.Library (LibraryEvent.SearchResults results)],
      saves := 0 }
  | _ => { ctx := c, emitted := [], saves := 0 }

/-- The per-family routing of `Application::handle_event`
(`src/application/app.rs` lines 186-201), restricted to the side-effect
handlers (the reducer `apply_event` has already run; `Shutdown` only stops
the loop). -/
def dispatch_event (sf : List Nat → List Nat) (fm : String → String → Option Int)
    (isDir : String → Bool) (c : Ctx) (event : AppEvent) : HandlerOut :=
  match event with
  | AppEvent.Playback pe => playback_handle sf c pe
  | AppEvent.Library le => library_handle sf fm c le
  | AppEvent.Ui ue => ui_handle sf isDir c ue
  | AppEvent.Shutdown => { ctx := c, emitted := [], saves := 0 }

/-- Discriminator: the library events that replace the song list in the
reducer (`ScanCompleted` and `LibraryLoaded`). -/
def replaces_song_list : AppEvent → Bool
  | AppEvent.Library (LibraryEvent.ScanCompleted _ _) => true
  | AppEvent.Library (LibraryEvent.LibraryLoaded _) => true
  | _ => false

/-- Discriminator: is an event a `PlayRequested` playback event. -/
def is_play_requested : AppEvent → Bool
  | AppEvent.Playback (PlaybackEvent.PlayRequested _) => true
  | _ => false

/-- Discriminator: is an event a `PathChangeRequested` UI event. -/
def is_path_change_requested : AppEvent → Bool
  | AppEvent.Ui (UiEvent.PathChangeRequested _) => true
  | _ => false

/-- The frame the handlers are supposed to respect: every `AppState` field
except `ui.selected_index` and `config.root_path` is unchanged. -/
def handler_frame (s t : AppState) : Prop :=
  t.config.volume = s.config.volume ∧
  t.config.shuffle = s.config.shuffle ∧
  t.config.repeat_mode = s.config.repeat_mode ∧
  t.library = s.library ∧
  t.playback = s.playback ∧
  t.ui.status_message = s.ui.status_message ∧
  t.ui.error_message = s.ui.error_message ∧
  t.ui.search_active = s.ui.search_active ∧
  t.ui.search_query = s.ui.search_query ∧
  t.ui.search_results = s.ui.search_results

/-- `AppState::default` (`src/application/state.rs` lines 136-169). -/
def default_state : AppState :=
  { config := { root_path := none, volume := 1, shuffle := false,
                repeat_mode := RepeatMode.Off },
    library := { songs := [], is_scanning := false, last_scan_path := none },
    playback := { current_song := none, is_playing := false, is_paused := false,
                  volume := 1, playlist := [], current_index := none,
                  current_elapsed := 0 },
    ui := { selected_index := none, status_message := "Welcome",
            error_message := none, search_active := false, search_query := "",
            search_results := [] } }

/-- A concrete song used by witnesses and counterexamples. -/
def mk_song (t : String) : Song :=
  { path := t ++ ".mp3", title := t, artist := none, album := none,
    track_number := none, duration := none, search_key := t }

/-- A five-song library matching the spec scenario. -/
def songs5 : List Song :=
  [mk_song "s0", mk_song "s1", mk_song "s2", mk_song "s3", mk_song "s4"]

/-- Concrete context: five songs, shuffle disabled, repeat `Off`,
`current_index = Some(4)` (the spec scenario for `TrackFinished`). -/
def ctx_five_off : Ctx :=
  { state := { default_state with
      library := { default_state.library with songs := songs5 },
      playback := { default_state.playback with current_index := some 4 } },
    shuffle := ShuffleManager.new,
    storage_present := true,
    playback := some { is_playing := true, is_paused := false, play_ok := true } }

/-- Concrete context: two songs, selection at index 0, shuffle disabled,
repeat `Off`. -/
def ctx_two_selected : Ctx :=
  { state := { default_state with
      library := { default_state.library with songs := [mk_song "a", mk_song "b"] },
      ui := { default_state.ui with selected_index := some 0 } },
    shuffle := ShuffleManager.new,
    storage_present := true,
    playback := none }

/-- A shuffle manager with shuffle turned on and nothing generated yet. -/
def shuffle_on : ShuffleManager :=
  { enabled := true, shuffle_queue := [], queue_position := 0, playlist_size := 0 }

/-- A shuffle manager at the end of a two-song pass (queue exhausted). -/
def shuffle_exhausted : ShuffleManager :=
  { enabled := true, shuffle_queue := [1, 0], queue_position := 1, playlist_size := 2 }

/-- `ctx_five_off` with repeat mode `All` instead of `Off`. -/
def ctx_five_all : Ctx :=
  { ctx_five_off with state := { ctx_five_off.state with
      config := { ctx_five_off.state.config with repeat_mode := RepeatMode.All } } }

/-- A context over the default state. -/
def ctx_default : Ctx :=
  { state := default_state, shuffle := ShuffleManager.new,
    storage_present := true, playback := none }

theorem cons_set_perm (t : List Nat) (k : Nat) (a b : Nat) (h : t[k]? = some b) :
    List.Perm (b :: t.set k a) (a :: t) := by
  induction t generalizing k with
  | nil => simp at h
  | cons c t ih =>
    cases k with
    | zero =>
      simp only [List.getElem?_cons_zero, Option.some.injEq] at h
      subst h
      simpa using List.Perm.swap a c t
    | succ k =>
      simp only [List.getElem?_cons_succ] at h
      have step := ih k h
      simp only [List.set_cons_succ]
      exact (List.Perm.swap c b (t.set k a)).trans
        ((List.Perm.cons c step).trans (List.Perm.swap a c t))

theorem set_getElem?_self (t : List Nat) (k : Nat) (a : Nat) (h : t[k]? = some a) :
    t.set k a = t := by
  induction t generalizing k with
  | nil => simp at h
  | cons c t ih =>
    cases k with
    | zero =>
      simp only [List.getElem?_cons_zero, Option.some.injEq] at h
      simp [h]
    | succ k =>
      simp only [List.getElem?_cons_succ] at h
      simp [ih k h]

theorem listSwap_perm (l : List Nat) (i j : Nat) : List.Perm (listSwap l i j) l := by
  induction l generalizing i j with
  | nil => simp [listSwap]
  | cons c t ih =>
    cases i with
    | zero =>
      cases j with
      | zero => simp [listSwap]
      | succ k =>
        cases hk : t[k]? with
        | none => simp [listSwap, hk]
        | some b =>
          simp only [listSwap, List.getElem?_cons_zero, List.getElem?_cons_succ, hk,
            List.set_cons_zero, List.set_cons_succ]
          exact cons_set_perm t k c b hk
    | succ m =>
      cases hm : t[m]? with
      | none => simp [listSwap, hm]
      | some a =>
        cases j with
        | zero =>
          simp only [listSwap, List.getElem?_cons_zero, List.getElem?_cons_succ, hm,
            List.set_cons_zero, List.set_cons_succ]
          exact cons_set_perm t m c a hm
        | succ k =>
          cases hk : t[k]? with
          | none => simp [listSwap, hm, hk]
          | some b =>
            have h2 := ih m k
            simp only [listSwap, hm, hk] at h2
            simp only [listSwap, List.getElem?_cons_succ, hm, hk, List.set_cons_succ]
            exact List.Perm.cons c h2

theorem generate_shuffle_queue_perm (sf : List Nat → List Nat)
    (hsf : ∀ l, List.Perm (sf l) l) (m : ShuffleManager) (ff : Option Nat)
    (h : 0 < m.playlist_size) :
    List.Perm (m.generate_shuffle_queue sf ff).shuffle_queue
      (List.range m.playlist_size) := by
  have hne : ¬ m.playlist_size = 0 := Nat.pos_iff_ne_zero.mp h
  have base : List.Perm (sf (List.range m.playlist_size))
      (List.range m.playlist_size) := hsf _
  unfold ShuffleManager.generate_shuffle_queue
  cases ff with
  | none => simpa [hne] using base
  | some first =>
    cases hidx : (sf (List.range m.playlist_size)).findIdx? (fun i => i = first) with
    | none => simpa [hne, hidx] using base
    | some pos => simpa [hne, hidx] using (listSwap_perm _ 0 pos).trans base

theorem generate_shuffle_queue_enabled (sf : List Nat → List Nat)
    (m : ShuffleManager) (ff : Option Nat) :
    (m.generate_shuffle_queue sf ff).enabled = m.enabled := by
  unfold ShuffleManager.generate_shuffle_queue
  split
  · rfl
  · rfl

theorem generate_shuffle_queue_size (sf : List Nat → List Nat)
    (m : ShuffleManager) (ff : Option Nat) :
    (m.generate_shuffle_queue sf ff).playlist_size = m.playlist_size := by
  unfold ShuffleManager.generate_shuffle_queue
  split
  · rfl
  · rfl

theorem generate_shuffle_queue_pos (sf : List Nat → List Nat)
    (m : ShuffleManager) (ff : Option Nat) (h : 0 < m.playlist_size) :
    (m.generate_shuffle_queue sf ff).queue_position = 0 := by
  have hne : ¬ m.playlist_size = 0 := Nat.pos_iff_ne_zero.mp h
  unfold ShuffleManager.generate_shuffle_queue
  simp [hne]

theorem init_eq_generate (sf : List Nat → List Nat) (m : ShuffleManager)
    (n : Nat) (cur : Option Nat) (hen : m.enabled = true) (hn : 0 < n) :
    m.init sf n cur =
      ShuffleManager.generate_shuffle_queue sf { m with playlist_size := n } cur := by
  unfold ShuffleManager.init
  simp [hen, hn]

theorem next_index_step (sf : List Nat → List Nat) (m : ShuffleManager)
    (cur : Option Nat) (loop : Bool) (hen : m.enabled = true)
    (hlt : m.queue_position + 1 < m.shuffle_queue.length) :
    m.next_index sf cur loop =
      (m.shuffle_queue[m.queue_position + 1]?,
       { m with queue_position := m.queue_position + 1 }) := by
  have hne : m.shuffle_queue.isEmpty = false := by
    cases hq : m.shuffle_queue with
    | nil => rw [hq] at hlt; simp at hlt
    | cons a t => simp
  unfold ShuffleManager.next_index
  simp [hen, hne, Nat.not_le.mpr hlt]

theorem next_index_end_noloop (sf : List Nat → List Nat) (m : ShuffleManager)
    (cur : Option Nat) (hen : m.enabled = true)
    (hne : m.shuffle_queue.isEmpty = false)
    (hend : m.shuffle_queue.length ≤ m.queue_position + 1) :
    m.next_index sf cur false = (none, m) := by
  unfold ShuffleManager.next_index
  simp [hen, hne, hend]

theorem drain_next_eq_drop (sf : List Nat → List Nat) :
    ∀ (fuel : Nat) (m : ShuffleManager), m.enabled = true →
    m.shuffle_queue.isEmpty = false →
    m.shuffle_queue.length ≤ m.queue_position + 1 + fuel →
    drain_next sf fuel m = m.shuffle_queue.drop (m.queue_position + 1) := by
  intro fuel
  induction fuel with
  | zero =>
    intro m hen hne hle
    have : m.shuffle_queue.drop (m.queue_position + 1) = [] :=
      List.drop_eq_nil_of_le (by omega)
    simp [drain_next, this]
  | succ fuel ih =>
    intro m hen hne hle
    by_cases hlt : m.queue_position + 1 < m.shuffle_queue.length
    · have hstep := next_index_step sf m none false hen hlt
      have hget : m.shuffle_queue[m.queue_position + 1]? =
          some (m.shuffle_queue.get ⟨m.queue_position + 1, hlt⟩) := by
        simp [List.getElem?_eq_getElem hlt]
      have hrec := ih { m with queue_position := m.queue_position + 1 }
        hen hne (by simpa using by omega)
      simp only [drain_next, hstep, hget]
      rw [hrec]
      have hd := List.drop_eq_getElem_cons hlt
      simp only [List.get_eq_getElem]
      exact hd.symm
    · have hend : m.shuffle_queue.length ≤ m.queue_position + 1 := by omega
      have hstep := next_index_end_noloop sf m none hen hne hend
      have : m.shuffle_queue.drop (m.queue_position + 1) = [] :=
        List.drop_eq_nil_of_le hend
      simp [drain_next, hstep, this]

theorem next_index_queue_perm (sf : List Nat → List Nat)
    (hsf : ∀ l, List.Perm (sf l) l) (m : ShuffleManager) (cur : Option Nat)
    (loop : Bool) (hen : m.enabled = true)
    (hq : List.Perm m.shuffle_queue (List.range m.playlist_size))
    (hs : 0 < m.playlist_size) :
    List.Perm ((m.next_index sf cur loop).2).shuffle_queue
      (List.range m.playlist_size) := by
  have hlen : m.shuffle_queue.length = m.playlist_size := by
    simpa using hq.length_eq
  have hne : m.shuffle_queue.isEmpty = false := by
    cases hq2 : m.shuffle_queue with
    | nil => rw [hq2] at hlen; simp at hlen; omega
    | cons a t => simp
  by_cases hend : m.shuffle_queue.length ≤ m.queue_position + 1
  · cases loop with
    | false => rw [next_index_end_noloop sf m cur hen hne hend]; exact hq
    | true =>
      have hgen := generate_shuffle_queue_perm sf hsf m none hs
      have hgsize := generate_shuffle_queue_size sf m none
      unfold ShuffleManager.next_index
      simp only [hen, Bool.true_eq_false, if_false, hne, Bool.false_eq_true,
        ite_false, if_pos hend, reduceIte]
      split
      · split
        · next last first hlf hh =>
          split
          · simpa using (listSwap_perm _ 0 _).trans hgen
          · simpa using hgen
        · simpa using hgen
      · simpa using hgen
  · rw [next_index_step sf m cur loop hen (by omega)]
    exact hq

theorem next_index_regen_eval (sf : List Nat → List Nat) (m : ShuffleManager)
    (cur : Option Nat) (hen : m.enabled = true)
    (hne : m.shuffle_queue.isEmpty = false)
    (hex : m.shuffle_queue.length ≤ m.queue_position + 1) :
    m.next_index sf cur true =
      (let m2 := m.generate_shuffle_queue sf none
       let m3 :=
         if 1 < m2.playlist_size then
           match m.shuffle_queue.getLast?, m2.shuffle_queue.head? with
           | some last, some first =>
             if last = first then
               { m2 with shuffle_queue :=
                 listSwap m2.shuffle_queue 0 (m2.shuffle_queue.length - 1) }
             else m2
           | _, _ => m2
         else m2
       let m4 := { m3 with queue_position := 0 }
       (m4.shuffle_queue[0]?, m4)) := by
  unfold ShuffleManager.next_index
  simp [hen, hne, hex]

/-- C3: whenever `next_index` with `loop_playlist = true` exhausts the current
shuffle queue of a playlist with more than one song and regenerates a new one,
the produced first index of the new pass differs from the last index of the
previous pass, and the queue position is reset to 0. -/
theorem next_index_no_immediate_repeat (sf : List Nat → List Nat)
    (hsf : ∀ l, List.Perm (sf l) l) (m : ShuffleManager) (cur : Option Nat)
    (hen : m.enabled = true)
    (hq : List.Perm m.shuffle_queue (List.range m.playlist_size))
    (hn : 1 < m.playlist_size)
    (hex : m.shuffle_queue.length ≤ m.queue_position + 1) :
    ∃ first last, (m.next_index sf cur true).1 = some first ∧
      m.shuffle_queue.getLast? = some last ∧ first ≠ last ∧
      (m.next_index sf cur true).2.queue_position = 0 := by
  have hlen : m.shuffle_queue.length = m.playlist_size := by
    simpa using hq.length_eq
  have hqne : m.shuffle_queue ≠ [] := by
    intro h0
    rw [h0] at hlen
    simp at hlen
    omega
  have hne : m.shuffle_queue.isEmpty = false := by
    cases hq2 : m.shuffle_queue with
    | nil => exact absurd hq2 hqne
    | cons a t => simp
  obtain ⟨L, hL⟩ : ∃ x, m.shuffle_queue.getLast? = some x := by
    cases hq2 : m.shuffle_queue with
    | nil => exact absurd hq2 hqne
    | cons a t => simp [List.getLast?_eq_getElem?, List.getElem?_eq_getElem]
  have hGperm : List.Perm (m.generate_shuffle_queue sf none).shuffle_queue
      (List.range m.playlist_size) :=
    generate_shuffle_queue_perm sf hsf m none (by omega)
  have hGlen : (m.generate_shuffle_queue sf none).shuffle_queue.length
      = m.playlist_size := by simpa using hGperm.length_eq
  have hGnodup : (m.generate_shuffle_queue sf none).shuffle_queue.Nodup :=
    hGperm.nodup_iff.mpr (List.nodup_range _)
  have hGsize : (m.generate_shuffle_queue sf none).playlist_size
      = m.playlist_size := generate_shuffle_queue_size sf m none
  have hGpos0 : 0 < (m.generate_shuffle_queue sf none).shuffle_queue.length := by
    omega
  have hGposB : (m.generate_shuffle_queue sf none).shuffle_queue.length - 1
      < (m.generate_shuffle_queue sf none).shuffle_queue.length := by omega
  have h0 : (m.generate_shuffle_queue sf none).shuffle_queue[0]?
      = some ((m.generate_shuffle_queue sf none).shuffle_queue.get ⟨0, hGpos0⟩) := by
    simp [List.getElem?_eq_getElem hGpos0]
  have hB : (m.generate_shuffle_queue sf none).shuffle_queue[(m.generate_shuffle_queue sf none).shuffle_queue.length - 1]?
      = some ((m.generate_shuffle_queue sf none).shuffle_queue.get
          ⟨(m.generate_shuffle_queue sf none).shuffle_queue.length - 1, hGposB⟩) := by
    simp [List.getElem?_eq_getElem hGposB]
  have hhead : (m.generate_shuffle_queue sf none).shuffle_queue.head?
      = some ((m.generate_shuffle_queue sf none).shuffle_queue.get ⟨0, hGpos0⟩) := by
    rw [List.head?_eq_getElem?]
    exact h0
  have hFB : (m.generate_shuffle_queue sf none).shuffle_queue.get ⟨0, hGpos0⟩
      ≠ (m.generate_shuffle_queue sf none).shuffle_queue.get
          ⟨(m.generate_shuffle_queue sf none).shuffle_queue.length - 1, hGposB⟩ := by
    simp only [List.get_eq_getElem]
    intro hcontra
    have := (List.Nodup.getElem_inj_iff hGnodup).mp hcontra
    omega
  rw [next_index_regen_eval sf m cur hen hne hex]
  dsimp only
  rw [if_pos (by omega : 1 < (m.generate_shuffle_queue sf none).playlist_size)]
  rw [hL, hhead]
  dsimp only
  by_cases hLF : L = (m.generate_shuffle_queue sf none).shuffle_queue.get ⟨0, hGpos0⟩
  · rw [if_pos hLF]
    have hswap : listSwap (m.generate_shuffle_queue sf none).shuffle_queue 0
        ((m.generate_shuffle_queue sf none).shuffle_queue.length - 1)
        = ((m.generate_shuffle_queue sf none).shuffle_queue.set 0
            ((m.generate_shuffle_queue sf none).shuffle_queue.get
              ⟨(m.generate_shuffle_queue sf none).shuffle_queue.length - 1, hGposB⟩)).set
          ((m.generate_shuffle_queue sf none).shuffle_queue.length - 1)
          ((m.generate_shuffle_queue sf none).shuffle_queue.get ⟨0, hGpos0⟩) := by
      unfold listSwap
      rw [h0, hB]
    refine ⟨(m.generate_shuffle_queue sf none).shuffle_queue.get
      ⟨(m.generate_shuffle_queue sf none).shuffle_queue.length - 1, hGposB⟩, L,
      ?_, rfl, ?_, rfl⟩
    · dsimp only
      rw [hswap]
      rw [List.getElem?_set_ne
        (show (m.generate_shuffle_queue sf none).shuffle_queue.length - 1 ≠ 0 by omega)]
      exact List.getElem?_set_self hGpos0
    · intro hcontra
      exact hFB (hLF ▸ hcontra.symm)
  · rw [if_neg hLF]
    refine ⟨(m.generate_shuffle_queue sf none).shuffle_queue.get ⟨0, hGpos0⟩, L,
      ?_, rfl, fun hcontra => hLF hcontra.symm, rfl⟩
    dsimp only
    exact h0

/-- C2: for every playlist size `n > 0`, every starting index and every
permutation-producing RNG, a freshly generated shuffle queue — via
`initialize`, via regeneration inside `next_index`, or via
`update_playlist_size` — is a permutation of `0..n`, and draining
`next_index` with `loop_playlist = false` visits every index exactly once:
the current head together with the drained indices is exactly the queue. -/
theorem shuffle_queue_is_permutation (sf : List Nat → List Nat)
    (hsf : ∀ l, List.Perm (sf l) l) (m : ShuffleManager) (n : Nat)
    (cur : Option Nat) (hen : m.enabled = true) (hn : 0 < n) :
    List.Perm (m.init sf n cur).shuffle_queue (List.range n)
    ∧ (m.playlist_size ≠ n →
        List.Perm (m.update_playlist_size sf n).shuffle_queue (List.range n))
    ∧ (∀ cur2 loop, List.Perm
        (((m.init sf n cur).next_index sf cur2 loop).2).shuffle_queue
        (List.range n))
    ∧ ((m.init sf n cur).shuffle_queue.take 1 ++ drain_next sf n (m.init sf n cur))
        = (m.init sf n cur).shuffle_queue := by
  have hinit : m.init sf n cur
      = ShuffleManager.generate_shuffle_queue sf { m with playlist_size := n } cur :=
    init_eq_generate sf m n cur hen hn
  have hperm1 : List.Perm (m.init sf n cur).shuffle_queue (List.range n) := by
    rw [hinit]
    exact generate_shuffle_queue_perm sf hsf { m with playlist_size := n } cur hn
  have hen2 : (m.init sf n cur).enabled = true := by
    rw [hinit, generate_shuffle_queue_enabled]
    exact hen
  have hsz : (m.init sf n cur).playlist_size = n := by
    rw [hinit, generate_shuffle_queue_size]
  have hlen : (m.init sf n cur).shuffle_queue.length = n := by
    simpa using hperm1.length_eq
  have hne2 : (m.init sf n cur).shuffle_queue.isEmpty = false := by
    cases hql : (m.init sf n cur).shuffle_queue with
    | nil => rw [hql] at hlen; simp at hlen; omega
    | cons a t => simp
  refine ⟨hperm1, ?_, ?_, ?_⟩
  · intro hdiff
    unfold ShuffleManager.update_playlist_size
    dsimp only
    rw [if_pos hdiff, if_pos hen]
    exact generate_shuffle_queue_perm sf hsf { m with playlist_size := n } none hn
  · intro cur2 loop
    have hq2 : List.Perm (m.init sf n cur).shuffle_queue
        (List.range (m.init sf n cur).playlist_size) := by
      rw [hsz]
      exact hperm1
    have hres := next_index_queue_perm sf hsf (m.init sf n cur) cur2 loop hen2 hq2
      (by rw [hsz]; omega)
    rw [hsz] at hres
    exact hres
  · have hpos : (m.init sf n cur).queue_position = 0 := by
      rw [hinit]
      exact generate_shuffle_queue_pos sf { m with playlist_size := n } cur hn
    have hdrop := drain_next_eq_drop sf n (m.init sf n cur) hen2 hne2
      (by rw [hlen, hpos]; omega)
    rw [hpos] at hdrop
    rw [hdrop]
    simpa using List.take_append_drop 1 (m.init sf n cur).shuffle_queue

theorem shuffle_queue_is_permutation_witness :
    (∀ l : List Nat, List.Perm (id l) l) ∧ shuffle_on.enabled = true ∧ 0 < 3 ∧
    (List.Perm (shuffle_on.init id 3 none).shuffle_queue (List.range 3)
     ∧ (shuffle_on.playlist_size ≠ 3 →
         List.Perm (shuffle_on.update_playlist_size id 3).shuffle_queue (List.range 3))
     ∧ (∀ cur2 loop, List.Perm
         (((shuffle_on.init id 3 none).next_index id cur2 loop).2).shuffle_queue
         (List.range 3))
     ∧ ((shuffle_on.init id 3 none).shuffle_queue.take 1
          ++ drain_next id 3 (shuffle_on.init id 3 none))
         = (shuffle_on.init id 3 none).shuffle_queue) :=
  ⟨fun l => List.Perm.refl l, rfl, by decide,
   shuffle_queue_is_permutation id (fun l => List.Perm.refl l) shuffle_on 3 none rfl
     (by decide)⟩

theorem next_index_no_immediate_repeat_witness :
    (∀ l : List Nat, List.Perm (id l) l) ∧ shuffle_exhausted.enabled = true ∧
    List.Perm shuffle_exhausted.shuffle_queue
      (List.range shuffle_exhausted.playlist_size) ∧
    1 < shuffle_exhausted.playlist_size ∧
    shuffle_exhausted.shuffle_queue.length ≤ shuffle_exhausted.queue_position + 1 ∧
    (∃ first last, (shuffle_exhausted.next_index id (some 0) true).1 = some first ∧
      shuffle_exhausted.shuffle_queue.getLast? = some last ∧ first ≠ last ∧
      (shuffle_exhausted.next_index id (some 0) true).2.queue_position = 0) :=
  ⟨fun l => List.Perm.refl l, rfl, by decide, by decide, by decide,
   next_index_no_immediate_repeat id (fun l => List.Perm.refl l) shuffle_exhausted
     (some 0) rfl (by decide) (by decide) (by decide)⟩

/-- C5: `SearchToggled{active:false}` restores the selection to the currently
playing index when one exists, else keeps the prior selection, else selects
index 0 when the library is non-empty (and leaves the empty selection
untouched when the library is empty). -/
theorem search_toggled_off_selection (s : AppState) :
    (apply_event s (AppEvent.Ui (UiEvent.SearchToggled false))).ui.selected_index =
      match s.playback.current_index with
      | some playing_index => some playing_index
      | none =>
        match s.ui.selected_index with
        | some selected => some selected
        | none => if s.library.songs.isEmpty then none else some 0 := by
  cases hpi : s.playback.current_index with
  | some playing_index => simp [apply_event, hpi]
  | none =>
    cases hsel : s.ui.selected_index with
    | some selected => simp [apply_event, hpi, hsel]
    | none =>
      by_cases hemp : s.library.songs.isEmpty
      · simp [apply_event, hpi, hsel, hemp]
      · simp only [Bool.not_eq_true] at hemp
        simp [apply_event, hpi, hsel, hemp]

/-- C10: the reducer never changes `config.root_path`; it changes
`library.songs` only on `ScanCompleted` or `LibraryLoaded`; in particular
every playback-family and every UI-family event leaves the song list
unchanged. -/
theorem reducer_preserves_songs_and_root_path (s : AppState) (e : AppEvent) :
    (apply_event s e).config.root_path = s.config.root_path
    ∧ ((apply_event s e).library.songs = s.library.songs
        ∨ replaces_song_list e = true)
    ∧ (∀ pe, (apply_event s (AppEvent.Playback pe)).library.songs
        = s.library.songs)
    ∧ (∀ ue, (apply_event s (AppEvent.Ui ue)).library.songs
        = s.library.songs) := by
  have hplay : ∀ pe, (apply_event s (AppEvent.Playback pe)).library.songs
      = s.library.songs := by
    intro pe
    cases pe <;> simp only [apply_event] <;> (repeat' split) <;> rfl
  have hui : ∀ ue, (apply_event s (AppEvent.Ui ue)).library.songs
      = s.library.songs := by
    intro ue
    cases ue <;> simp only [apply_event] <;> (repeat' split) <;> rfl
  refine ⟨?_, ?_, hplay, hui⟩
  · cases e with
    | Playback pe => cases pe <;> simp only [apply_event] <;> (repeat' split) <;> rfl
    | Library le => cases le <;> simp only [apply_event] <;> (repeat' split) <;> rfl
    | Ui ue => cases ue <;> simp only [apply_event] <;> (repeat' split) <;> rfl
    | Shutdown => rfl
  · cases e with
    | Playback pe => exact Or.inl (hplay pe)
    | Library le =>
      cases le with
      | ScanCompleted songs count => exact Or.inr rfl
      | LibraryLoaded songs => exact Or.inr rfl
      | ScanRequested path => exact Or.inl rfl
      | ScanStarted path => exact Or.inl rfl
      | ScanProgress found => exact Or.inl rfl
      | SearchRequested query => exact Or.inl rfl
      | SearchResults results =>
        refine Or.inl ?_
        simp only [apply_event]
        (repeat' split) <;> rfl
    | Ui ue => exact Or.inl (hui ue)
    | Shutdown => exact Or.inl rfl

/-- C9: with shuffle disabled and no boundary crossed (`idx + 1 < len`),
`advance_to_next` resolves to `Go(idx+1)` and a subsequent `advance_to_prev`
from `idx+1` resolves to `Go(idx)`. -/
theorem advance_next_prev_inverse (sf : List Nat → List Nat) (sm : ShuffleManager)
    (idx len : Nat) (loop loop2 : Bool) (hsh : sm.enabled = false)
    (hlt : idx + 1 < len) :
    (advance_to_next_target sf sm (some idx) len loop).1 = NavTarget.Go (idx + 1)
    ∧ (advance_to_prev_target (advance_to_next_target sf sm (some idx) len loop).2
        (some (idx + 1)) len loop2).1 = NavTarget.Go idx := by
  have hnext : advance_to_next_target sf sm (some idx) len loop
      = (NavTarget.Go (idx + 1), sm) := by
    unfold advance_to_next_target
    simp [hsh, hlt]
  rw [hnext]
  refine ⟨rfl, ?_⟩
  unfold advance_to_prev_target
  simp [hsh]

theorem advance_next_prev_inverse_witness :
    (ShuffleManager.new.enabled = false ∧ 2 + 1 < 5) ∧
    ((advance_to_next_target id ShuffleManager.new (some 2) 5 false).1
        = NavTarget.Go 3
     ∧ (advance_to_prev_target
          (advance_to_next_target id ShuffleManager.new (some 2) 5 false).2
          (some 3) 5 false).1 = NavTarget.Go 2) :=
  ⟨⟨rfl, by decide⟩,
   advance_next_prev_inverse id ShuffleManager.new 2 5 false false rfl (by decide)⟩

/-- C1 (amended): with shuffle disabled, repeat `Off` and
`current_index = Some(idx)` at the last position (`len = idx + 1`), handling
`TrackFinished` does not stop playback: it emits exactly one `PlayRequested`
carrying the same last song (`Restart` of the current song). -/
theorem trackfinished_repeat_off_at_end_restarts (sf : List Nat → List Nat)
    (c : Ctx) (idx : Nat) (hsh : c.shuffle.enabled = false)
    (hrep : c.state.config.repeat_mode = RepeatMode.Off)
    (hcur : c.state.playback.current_index = some idx)
    (hlen : c.state.library.songs.length = idx + 1) :
    ∃ s, c.state.library.songs[idx]? = some s ∧
      (playback_handle sf c PlaybackEvent.TrackFinished).emitted
        = [AppEvent.Playback (PlaybackEvent.PlayRequested s)] := by
  have hidx : idx < c.state.library.songs.length := by omega
  have htarget : advance_to_next_target sf c.shuffle (some idx)
      c.state.library.songs.length false = (NavTarget.Restart, c.shuffle) := by
    unfold advance_to_next_target
    simp [hsh, (show ¬ (idx + 1 < c.state.library.songs.length) from by omega)]
  refine ⟨c.state.library.songs.get ⟨idx, hidx⟩, by
    simp [List.getElem?_eq_getElem hidx], ?_⟩
  unfold playback_handle
  dsimp only
  rw [hrep, hcur]
  unfold advance_to_next
  rw [htarget]
  unfold execute_nav
  dsimp only
  simp [List.getElem?_eq_getElem hidx]

/-- C1 as stated is false: in the concrete five-song scenario (shuffle off,
repeat `Off`, `current_index = Some(4)`), handling `TrackFinished` does emit a
`PlayRequested` event. -/
theorem trackfinished_repeat_off_at_end_counterexample :
    (playback_handle id ctx_five_off PlaybackEvent.TrackFinished).emitted.any
      is_play_requested = true := by
  decide

theorem trackfinished_repeat_off_at_end_restarts_witness :
    (ctx_five_off.shuffle.enabled = false ∧
     ctx_five_off.state.config.repeat_mode = RepeatMode.Off ∧
     ctx_five_off.state.playback.current_index = some 4 ∧
     ctx_five_off.state.library.songs.length = 4 + 1) ∧
    (∃ s, ctx_five_off.state.library.songs[4]? = some s ∧
      (playback_handle id ctx_five_off PlaybackEvent.TrackFinished).emitted
        = [AppEvent.Playback (PlaybackEvent.PlayRequested s)]) :=
  ⟨⟨rfl, rfl, rfl, rfl⟩,
   trackfinished_repeat_off_at_end_restarts id ctx_five_off 4 rfl rfl rfl rfl⟩

/-- C6: with shuffle disabled, repeat `All` and `current_index = Some(idx)` at
the last position (`len = idx + 1`), handling `TrackFinished` wraps around and
emits `PlayRequested` carrying `songs[0]`. -/
theorem trackfinished_repeat_all_wraps (sf : List Nat → List Nat) (c : Ctx)
    (idx : Nat) (hsh : c.shuffle.enabled = false)
    (hrep : c.state.config.repeat_mode = RepeatMode.All)
    (hcur : c.state.playback.current_index = some idx)
    (hlen : c.state.library.songs.length = idx + 1) :
    ∃ s, c.state.library.songs[0]? = some s ∧
      (playback_handle sf c PlaybackEvent.TrackFinished).emitted
        = [AppEvent.Playback (PlaybackEvent.PlayRequested s)] := by
  have h0 : 0 < c.state.library.songs.length := by omega
  have htarget : advance_to_next_target sf c.shuffle (some idx)
      c.state.library.songs.length true = (NavTarget.Go 0, c.shuffle) := by
    unfold advance_to_next_target
    simp [hsh, (show ¬ (idx + 1 < c.state.library.songs.length) from by omega)]
  refine ⟨c.state.library.songs.get ⟨0, h0⟩, by
    simp [List.getElem?_eq_getElem h0], ?_⟩
  unfold playback_handle
  dsimp only
  rw [hrep, hcur]
  unfold advance_to_next
  rw [htarget]
  unfold execute_nav
  dsimp only
  simp [List.getElem?_eq_getElem h0]

theorem trackfinished_repeat_all_wraps_witness :
    (ctx_five_all.shuffle.enabled = false ∧
     ctx_five_all.state.config.repeat_mode = RepeatMode.All ∧
     ctx_five_all.state.playback.current_index = some 4 ∧
     ctx_five_all.state.library.songs.length = 4 + 1) ∧
    (∃ s, ctx_five_all.state.library.songs[0]? = some s ∧
      (playback_handle id ctx_five_all PlaybackEvent.TrackFinished).emitted
        = [AppEvent.Playback (PlaybackEvent.PlayRequested s)]) :=
  ⟨⟨rfl, rfl, rfl, rfl⟩,
   trackfinished_repeat_all_wraps id ctx_five_all 4 rfl rfl rfl rfl⟩

/-- C8: handling `PathChangeRequested{path}` when the path is not an existing
directory emits exactly one `ShowError`, leaves the whole context (state and
shuffle manager) unchanged, and performs no storage `save`. -/
theorem path_change_invalid_dir (sf : List Nat → List Nat)
    (isDir : String → Bool) (c : Ctx) (path : String)
    (h : isDir path = false) :
    (ui_handle sf isDir c (UiEvent.PathChangeRequested path)).emitted
      = [AppEvent.Ui (UiEvent.ShowError "Invalid directory path")]
    ∧ (ui_handle sf isDir c (UiEvent.PathChangeRequested path)).ctx = c
    ∧ (ui_handle sf isDir c (UiEvent.PathChangeRequested path)).saves = 0 := by
  unfold ui_handle
  dsimp only
  rw [h]
  exact ⟨rfl, rfl, rfl⟩

theorem path_change_invalid_dir_witness :
    ((fun _ : String => false) "nNone" = false) ∧
    ((ui_handle id (fun _ => false) ctx_default
        (UiEvent.PathChangeRequested "nNone")).emitted
      = [AppEvent.Ui (UiEvent.ShowError "Invalid directory path")]
    ∧ (ui_handle id (fun _ => false) ctx_default
        (UiEvent.PathChangeRequested "nNone")).ctx = ctx_default
    ∧ (ui_handle id (fun _ => false) ctx_default
        (UiEvent.PathChangeRequested "nNone")).saves = 0) :=
  ⟨rfl, path_change_invalid_dir id (fun _ => false) ctx_default "nNone" rfl⟩

/-- C7: for every fuzzy-matcher oracle, every library and every query, the
search results are sorted by non-increasing score, and an empty query or an
empty library yields the empty result. -/
theorem search_sorted_and_empty (fm : String → String → Option Int)
    (library : List Song) (query : String) :
    List.Pairwise (fun a b : SearchResult => b.score ≤ a.score)
      (search fm library query)
    ∧ search fm library "" = []
    ∧ search fm ([] : List Song) query = [] := by
  refine ⟨?_, by simp [search], by simp [search]⟩
  by_cases hq : query = ""
  · simp [search, hq]
  · have hsorted := @List.sorted_mergeSort SearchResult
      (fun a b : SearchResult => decide (b.score ≤ a.score))
      (fun a b c hab hbc => by
        simp only [decide_eq_true_eq] at hab hbc ⊢
        omega)
      (fun a b => by
        simp only [Bool.or_eq_true, decide_eq_true_eq]
        omega)
      ((library.enum.filterMap (fun p =>
        (score_song fm p.2 query.toLower).map (fun sc =>
          { index := p.1, song := p.2, score := sc }))))
    have hred : search fm library query =
        ((library.enum.filterMap (fun p =>
          (score_song fm p.2 query.toLower).map (fun sc =>
            { index := p.1, song := p.2, score := sc })))).mergeSort
          (fun a b : SearchResult => decide (b.score ≤ a.score)) := by
      simp [search, hq]
    rw [hred]
    exact hsorted.imp (fun h => by simpa using h)

theorem handler_frame_refl (s : AppState) : handler_frame s s := by
  simp [handler_frame]

theorem execute_nav_frame (c : Ctx) (t : NavTarget) (cur : Option Nat) :
    handler_frame c.state (execute_nav c t cur).ctx.state ∧
    (execute_nav c t cur).ctx.state.config.root_path
      = c.state.config.root_path := by
  unfold execute_nav
  dsimp only
  split
  · split
    · exact ⟨by simp [handler_frame], rfl⟩
    · exact ⟨by simp [handler_frame], rfl⟩
  · exact ⟨handler_frame_refl _, rfl⟩

theorem advance_to_next_frame (sf : List Nat → List Nat) (c : Ctx)
    (cur : Option Nat) (len : Nat) (loop : Bool) :
    handler_frame c.state (advance_to_next sf c cur len loop).ctx.state ∧
    (advance_to_next sf c cur len loop).ctx.state.config.root_path
      = c.state.config.root_path := by
  unfold advance_to_next
  exact execute_nav_frame _ _ _

theorem advance_to_prev_frame (c : Ctx) (cur : Option Nat) (len : Nat)
    (loop : Bool) :
    handler_frame c.state (advance_to_prev c cur len loop).ctx.state ∧
    (advance_to_prev c cur len loop).ctx.state.config.root_path
      = c.state.config.root_path := by
  unfold advance_to_prev
  exact execute_nav_frame _ _ _

theorem playback_handle_frame (sf : List Nat → List Nat) (c : Ctx)
    (pe : PlaybackEvent) :
    handler_frame c.state (playback_handle sf c pe).ctx.state ∧
    (playback_handle sf c pe).ctx.state.config.root_path
      = c.state.config.root_path := by
  cases pe with
  | TrackFinished =>
    unfold playback_handle
    dsimp only
    split
    · (repeat' split) <;> exact ⟨handler_frame_refl _, rfl⟩
    · exact advance_to_next_frame sf c _ _ _
    · exact advance_to_next_frame sf c _ _ _
  | PlayRequested song =>
    unfold playback_handle
    dsimp only
    (repeat' split) <;> exact ⟨handler_frame_refl _, rfl⟩
  | _ => exact ⟨handler_frame_refl _, rfl⟩

theorem library_handle_frame (sf : List Nat → List Nat)
    (fm : String → String → Option Int) (c : Ctx) (le : LibraryEvent) :
    handler_frame c.state (library_handle sf fm c le).ctx.state ∧
    (library_handle sf fm c le).ctx.state.config.root_path
      = c.state.config.root_path := by
  cases le <;> exact ⟨handler_frame_refl _, rfl⟩

theorem ui_handle_frame (sf : List Nat → List Nat) (isDir : String → Bool)
    (c : Ctx) (ue : UiEvent) :
    handler_frame c.state (ui_handle sf isDir c ue).ctx.state ∧
    ((ui_handle sf isDir c ue).ctx.state.config.root_path
        = c.state.config.root_path
      ∨ is_path_change_requested (AppEvent.Ui ue) = true) := by
  cases ue with
  | PathChangeRequested path =>
    refine ⟨?_, Or.inr rfl⟩
    unfold ui_handle
    dsimp only
    split
    · exact handler_frame_refl _
    · simp [handler_frame]
  | NextTrackRequested =>
    unfold ui_handle
    dsimp only
    exact ⟨(advance_to_next_frame sf _ _ _ _).1,
      Or.inl (advance_to_next_frame sf _ _ _ _).2⟩
  | PreviousTrackRequested =>
    unfold ui_handle
    dsimp only
    exact ⟨(advance_to_prev_frame _ _ _ _).1,
      Or.inl (advance_to_prev_frame _ _ _ _).2⟩
  | PlaySelectedRequested =>
    unfold ui_handle
    dsimp only
    (repeat' split) <;> exact ⟨handler_frame_refl _, Or.inl rfl⟩
  | TogglePauseRequested =>
    unfold ui_handle
    dsimp only
    (repeat' split) <;> exact ⟨handler_frame_refl _, Or.inl rfl⟩
  | SearchToggled active =>
    unfold ui_handle
    dsimp only
    (repeat' split) <;> exact ⟨handler_frame_refl _, Or.inl rfl⟩
  | ShuffleToggled shuffle_enabled =>
    exact ⟨handler_frame_refl _, Or.inl rfl⟩
  | ShuffleSet enabled =>
    exact ⟨handler_frame_refl _, Or.inl rfl⟩
  | _ => exact ⟨handler_frame_refl _, Or.inl rfl⟩

/-- C4 (amended): the handlers the dispatcher routes events to mutate
`AppState` in exactly two places — `execute_nav` updates `ui.selected_index`,
and `PathChangeRequested` on a valid directory updates `config.root_path`.
Every other `AppState` field is left unchanged by every handler, and
`config.root_path` is unchanged by every event except `PathChangeRequested`. -/
theorem handlers_respect_frame (sf : List Nat → List Nat)
    (fm : String → String → Option Int) (isDir : String → Bool) (c : Ctx)
    (e : AppEvent) :
    handler_frame c.state (dispatch_event sf fm isDir c e).ctx.state
    ∧ ((dispatch_event sf fm isDir c e).ctx.state.config.root_path
        = c.state.config.root_path ∨ is_path_change_requested e = true) := by
  cases e with
  | Playback pe =>
    obtain ⟨h1, h2⟩ := playback_handle_frame sf c pe
    exact ⟨h1, Or.inl h2⟩
  | Library le =>
    obtain ⟨h1, h2⟩ := library_handle_frame sf fm c le
    exact ⟨h1, Or.inl h2⟩
  | Ui ue => exact ui_handle_frame sf isDir c ue
  | Shutdown => exact ⟨handler_frame_refl _, Or.inl rfl⟩

/-- C4 as stated is false: dispatching `NextTrackRequested` in a concrete
two-song context makes the UI handler mutate `AppState` directly
(`ui.selected_index` changes from `Some(0)` to `Some(1)`). -/
theorem handlers_mutate_state_counterexample :
    (dispatch_event id (fun _ _ => none) (fun _ => false) ctx_two_selected
        (AppEvent.Ui UiEvent.NextTrackRequested)).ctx.state
      ≠ ctx_two_selected.state := by
  decide
